import Mathlib

/-!
Verification of the Combat Mission AI bridge (screen-capture backend, grid
mapper, gymnasium environment, gameplay recorder) against its specification.

The Python source is shallowly embedded: Python unbounded `int` is `Int`,
Python floor division `//` is `Int.fdiv`, numpy rasters are a `Frame`
structure (dimensions plus a pixel function), fallible operations return
`Option`/`Except`, and the outcomes of external effects (the scrot
subprocess, np.save, OCR text extraction) are supplied as explicit oracle
arguments.
-/

/-- Configuration record `GameWindow` from config.py: the screen region the
game occupies. -/
structure GameWindow where
  left : Int
  top : Int
  width : Int
  height : Int
deriving DecidableEq

/-- Configuration record `GridConfig` from config.py: grid dimensions and the
UI margins excluded from the clickable area. -/
structure GridConfig where
  rows : Int
  cols : Int
  margin_top : Int
  margin_bottom : Int
  margin_left : Int
  margin_right : Int
deriving DecidableEq

/-- The default window from config.py (`GameWindow()` defaults). -/
def defaultWindow : GameWindow := { left := 0, top := 0, width := 1920, height := 1080 }

/-- The default grid from config.py (`GridConfig()` defaults). -/
def defaultGrid : GridConfig :=
  { rows := 10, cols := 10, margin_top := 50, margin_bottom := 100
  , margin_left := 10, margin_right := 10 }

/-- `InputController.__init__` precomputed `self._cell_width`:
`(window.width - margin_left - margin_right) // cols`. -/
def cell_width (w : GameWindow) (g : GridConfig) : Int :=
  (w.width - g.margin_left - g.margin_right).fdiv g.cols

/-- `InputController.__init__` precomputed `self._cell_height`:
`(window.height - margin_top - margin_bottom) // rows`. -/
def cell_height (w : GameWindow) (g : GridConfig) : Int :=
  (w.height - g.margin_top - g.margin_bottom).fdiv g.rows

/-- `InputController.grid_to_screen`: grid cell to the screen pixel at the
center of the cell. -/
def grid_to_screen (w : GameWindow) (g : GridConfig) (row col : Int) : Int × Int :=
  ( w.left + g.margin_left + col * cell_width w g + (cell_width w g).fdiv 2
  , w.top + g.margin_top + row * cell_height w g + (cell_height w g).fdiv 2 )

/-- The clamped coordinate-to-cell computation inlined in
`GameplayRecorder._on_click` (recorder.py lines 116-126): relative
coordinates floor-divided by the cell dimensions, clamped to the grid.
Returns (row, col). -/
def to_cell (w : GameWindow) (g : GridConfig) (x y : Int) : Int × Int :=
  let rel_x := x - w.left - g.margin_left
  let rel_y := y - w.top - g.margin_top
  let col := max 0 (min (g.cols - 1) (rel_x.fdiv (cell_width w g)))
  let row := max 0 (min (g.rows - 1) (rel_y.fdiv (cell_height w g)))
  (row, col)

/-- Floor-dividing a cell-center offset by the cell size recovers the cell
index: `(a*b + b/2) // b = a` for `0 ≤ a`, `0 < b`. -/
lemma center_fdiv (a b : Int) (hb : 0 < b) :
    (a * b + b.fdiv 2).fdiv b = a := by
  rw [Int.fdiv_eq_ediv _ (by omega : (0:Int) ≤ 2)]
  rw [Int.fdiv_eq_ediv _ (le_of_lt hb)]
  rw [Int.add_comm, Int.add_mul_ediv_right _ _ (ne_of_gt hb)]
  have h2 : b / 2 < b := by omega
  have h0 : 0 ≤ b / 2 := Int.ediv_nonneg (le_of_lt hb) (by omega)
  rw [Int.ediv_eq_zero_of_lt h0 h2, Int.zero_add]

/-- Claim C2: for every in-range (row, col), given positive cell dimensions,
mapping the cell to its center screen point with `grid_to_screen` and mapping
that point back with the recorder's clamped `to_cell` computation returns the
same (row, col). -/
theorem grid_roundtrip (w : GameWindow) (g : GridConfig) (row col : Int)
    (hr0 : 0 ≤ row) (hr : row < g.rows) (hc0 : 0 ≤ col) (hc : col < g.cols)
    (hcw : 0 < cell_width w g) (hch : 0 < cell_height w g) :
    to_cell w g (grid_to_screen w g row col).1 (grid_to_screen w g row col).2 = (row, col) := by
  unfold to_cell grid_to_screen
  have hx : w.left + g.margin_left + col * cell_width w g + (cell_width w g).fdiv 2
      - w.left - g.margin_left = col * cell_width w g + (cell_width w g).fdiv 2 := by ring
  have hy : w.top + g.margin_top + row * cell_height w g + (cell_height w g).fdiv 2
      - w.top - g.margin_top = row * cell_height w g + (cell_height w g).fdiv 2 := by ring
  simp only [hx, hy, center_fdiv col _ hcw, center_fdiv row _ hch, Prod.mk.injEq]
  constructor <;> omega

/-- Witness for C2 at the default configuration, cell (3, 7). -/
theorem grid_roundtrip_witness :
    to_cell defaultWindow defaultGrid
      (grid_to_screen defaultWindow defaultGrid 3 7).1
      (grid_to_screen defaultWindow defaultGrid 3 7).2 = (3, 7) :=
  grid_roundtrip defaultWindow defaultGrid 3 7 (by decide) (by decide) (by decide)
    (by decide) (by decide) (by decide)

/-! ## Screen capture (interface/screen.py) -/

/-- A numpy raster: height x width x channels with a pixel function
(row, col, channel) -> value. Values model uint8 intensities. -/
structure Frame where
  height : Nat
  width : Nat
  channels : Nat
  pix : Nat → Nat → Nat → Nat

/-- An all-zero single-channel raster, `np.zeros((h, w, 1), dtype=np.uint8)`. -/
def zeroFrame (h w : Nat) : Frame :=
  { height := h, width := w, channels := 1, pix := fun _ _ _ => 0 }

/-- The outcome of one underlying scrot capture attempt: everything the
external world decides in `ScreenCapture._grab_scrot` (the subprocess result,
the temp file's state, the image scrot wrote, whether loading raised). -/
structure ScrotAttempt where
  timeout : Bool
  returncode : Int
  fileExists : Bool
  fileSize : Nat
  loadRaises : Bool
  image : Frame

/-- Crop of the loaded screenshot to the configured region, with the crop
bounds clamped to the image (`right = min(...)`, `bottom = min(...)`,
cropped only `if right > left and bottom > top`), as in `_grab_scrot`. -/
def cropRegion (w : GameWindow) (img : Frame) : Frame :=
  let right := min (w.left + w.width) (img.width : Int)
  let bottom := min (w.top + w.height) (img.height : Int)
  if w.left < right ∧ w.top < bottom then
    { height := (bottom - w.top).toNat, width := (right - w.left).toNat
    , channels := img.channels
    , pix := fun r c ch => img.pix (r + w.top.toNat) (c + w.left.toNat) ch }
  else img

/-- `frame = frame[:, :, :3]` when the loaded image is RGBA. -/
def dropAlpha (f : Frame) : Frame :=
  if f.channels = 4 then { f with channels := 3 } else f

/-- `cv2.cvtColor(frame, cv2.COLOR_RGB2BGR)` applied when the frame has three
channels and cv2 is available: channel order reversed. -/
def rgb2bgr (cv2Available : Bool) (f : Frame) : Frame :=
  if f.channels = 3 ∧ cv2Available then
    { f with pix := fun r c ch => f.pix r c (2 - ch) }
  else f

/-- `ScreenCapture._grab_scrot` over one attempt outcome: every failure path
(timeout, nonzero exit, missing file, empty file, load exception) returns
None; otherwise the image is cropped, alpha-stripped and converted to BGR. -/
def grab_scrot (cv2Available : Bool) (region : GameWindow) (a : ScrotAttempt) :
    Option Frame :=
  if a.timeout then none
  else if a.returncode ≠ 0 then none
  else if ¬a.fileExists then none
  else if a.fileSize = 0 then none
  else if a.loadRaises then none
  else some (rgb2bgr cv2Available (dropAlpha (cropRegion region a.image)))

/-- `ScreenCapture.grab`: dispatches once to the strategy bound at
construction. The oracle streams give the outcome each successive underlying
attempt would have; the code performs exactly one attempt (index 0). The
function is total (both strategies catch their exceptions), so `grab` never
raises to the caller. -/
def grab (use_scrot cv2Available : Bool) (region : GameWindow)
    (scrotAttempts : Nat → ScrotAttempt) (mssAttempts : Nat → Option Frame) :
    Option Frame :=
  if use_scrot then grab_scrot cv2Available region (scrotAttempts 0)
  else mssAttempts 0

/-- A second definition following the spec's words for claim C3 ("on failure,
retried at most once immediately; a second failure returns an explicit
no-frame result"): capture consults attempt 0 and, if it failed, retries with
attempt 1. To be compared with `grab`, the definition from the source. -/
def grab_spec_retry (use_scrot cv2Available : Bool) (region : GameWindow)
    (scrotAttempts : Nat → ScrotAttempt) (mssAttempts : Nat → Option Frame) :
    Option Frame :=
  if use_scrot then
    match grab_scrot cv2Available region (scrotAttempts 0) with
    | some f => some f
    | none => grab_scrot cv2Available region (scrotAttempts 1)
  else
    match mssAttempts 0 with
    | some f => some f
    | none => mssAttempts 1

/-- A scrot attempt that fails with a nonzero exit status. -/
def failingAttempt : ScrotAttempt :=
  { timeout := false, returncode := 1, fileExists := false, fileSize := 0
  , loadRaises := false, image := zeroFrame 0 0 }

/-- A scrot attempt that succeeds with a full-screen RGB image. -/
def succeedingAttempt : ScrotAttempt :=
  { timeout := false, returncode := 0, fileExists := true, fileSize := 4096
  , loadRaises := false
  , image := { height := 1080, width := 1920, channels := 3, pix := fun _ _ _ => 7 } }

/-- Attempt stream whose first attempt fails and whose second would succeed. -/
def failThenSucceed : Nat → ScrotAttempt :=
  fun n => if n = 0 then failingAttempt else succeedingAttempt

/-- Counterexample to claim C3: with a first scrot attempt that fails and a
second that would succeed, `grab` already returns None after the single
failure — no retry happens — while the spec's retry semantics
(`grab_spec_retry`) would have produced a frame. So "only after a second
failure does capture() return None" is false of the code. -/
theorem grab_no_retry_counterexample :
    grab true true defaultWindow failThenSucceed (fun _ => none) = none ∧
    (grab_scrot true defaultWindow (failThenSucceed 1)).isSome = true ∧
    (grab_spec_retry true true defaultWindow failThenSucceed (fun _ => none)).isSome = true :=
  ⟨rfl, rfl, rfl⟩

/-- Claim C3 amended: a failing capture attempt by the bound strategy is not
retried — the first failure already makes `grab` return the explicit no-frame
result None, and the result depends only on attempt 0 (no later attempt is
consulted). `grab` never raises: it is a total function into `Option`. -/
theorem grab_single_failure (cv2Available : Bool) (region : GameWindow)
    (scrotAttempts : Nat → ScrotAttempt) (mssAttempts : Nat → Option Frame)
    (hfail : grab_scrot cv2Available region (scrotAttempts 0) = none) :
    grab true cv2Available region scrotAttempts mssAttempts = none ∧
    ∀ scrotAttempts2 : Nat → ScrotAttempt, scrotAttempts2 0 = scrotAttempts 0 →
      grab true cv2Available region scrotAttempts2 mssAttempts = none := by
  refine ⟨by simpa [grab] using hfail, fun sa2 h0 => ?_⟩
  simpa [grab, h0] using hfail

/-- Witness for the amended C3: a stream of failing attempts makes `grab`
return None. -/
theorem grab_single_failure_witness :
    grab true true defaultWindow (fun _ => failingAttempt) (fun _ => none) = none :=
  (grab_single_failure true defaultWindow (fun _ => failingAttempt) (fun _ => none) rfl).1

/-- `cv2.cvtColor(frame, cv2.COLOR_BGR2GRAY)` followed by
`gray[..., np.newaxis]`: the BT.601 luma combination in fixed point (the
exact rounding of cv2 is immaterial to the claims; zero input gives zero
output), producing an HxWx1 raster. -/
def grayscale (f : Frame) : Frame :=
  { height := f.height, width := f.width, channels := 1
  , pix := fun r c _ => (299 * f.pix r c 2 + 587 * f.pix r c 1 + 114 * f.pix r c 0) / 1000 }

/-- `cv2.resize(gray, (width, height))` modelled as interpolation by sampling
the source raster (nearest-neighbour representative; any interpolation of an
all-zero raster is zero). -/
def resizeFrame (f : Frame) (width height : Nat) : Frame :=
  { height := height, width := width, channels := f.channels
  , pix := fun r c ch => f.pix (r * f.height / height) (c * f.width / width) ch }

/-- `ScreenCapture.grab_grayscale`: raises when cv2 is unavailable; when the
underlying `grab` returned None, substitutes a zero raster of the configured
full window shape; otherwise converts the frame to HxWx1 grayscale. The
`grab` outcome is passed as the oracle `grabResult`. -/
def grab_grayscale (window : GameWindow) (cv2Available : Bool)
    (grabResult : Option Frame) : Except String Frame :=
  if cv2Available then
    match grabResult with
    | none => Except.ok (zeroFrame window.height.toNat window.width.toNat)
    | some f => Except.ok (grayscale f)
  else Except.error "opencv-python is required"

/-- `ScreenCapture.grab_resized`: grayscale capture resized to
(height x width x 1). -/
def grab_resized (window : GameWindow) (cv2Available : Bool)
    (grabResult : Option Frame) (width height : Nat) : Except String Frame :=
  if cv2Available then
    match grab_grayscale window cv2Available grabResult with
    | Except.error e => Except.error e
    | Except.ok gray => Except.ok (resizeFrame gray width height)
  else Except.error "opencv-python is required"

/-- Claim C4: with cv2 present, when the underlying capture fails (`grab`
returned None), `grab_grayscale` returns the zero-filled grayscale raster of
the configured full window shape — never a null result — and `grab_resized`
returns that zero frame resized to (height x width x 1). -/
theorem grab_zero_fill (window : GameWindow) (width height : Nat) :
    grab_grayscale window true none
      = Except.ok (zeroFrame window.height.toNat window.width.toNat) ∧
    grab_resized window true none width height
      = Except.ok (zeroFrame height width) :=
  ⟨rfl, rfl⟩

/-! ## Gymnasium environment (env/combat_mission_env.py) -/

/-- The mutable episode state of `CombatMissionEnv`: `prev_score`,
`turn_count`, `action_count`. -/
structure EpisodeState where
  prev_score : Int
  turn_count : Nat
  action_count : Nat
deriving DecidableEq

/-- An input command delivered to the game through `InputController` during
`step` or `reset`. -/
inductive Command where
  | clickGrid (cellId : Nat)
  | cycleUnit
  | moveFast
  | moveQuick
  | target
  | endTurn
  | cameraTopDown
deriving DecidableEq

/-- The if/elif action-dispatch chain of `CombatMissionEnv.step`: which input
command (if any) is issued, and whether the end-turn branch (the only one
that increments `turn_count`) was taken. An action matching no branch issues
nothing. -/
def dispatch (grid_size action : Nat) : Option Command × Bool :=
  if action < grid_size then (some (Command.clickGrid action), false)
  else if action = grid_size then (some Command.cycleUnit, false)
  else if action = grid_size + 1 then (some Command.moveFast, false)
  else if action = grid_size + 2 then (some Command.moveQuick, false)
  else if action = grid_size + 3 then (some Command.target, false)
  else if action = grid_size + 4 then (some Command.endTurn, true)
  else (none, false)

/-- `CombatMissionEnv._calculate_reward`: returns (reward, new prev_score).
The OCR reader is an optional oracle `Frame → Int` (`OCRReader.extract_score`
over the fixed score region; it yields 0 on any extraction failure and never
raises). `rewardGrab` is what `self.screen.grab()` returns in this call. If
OCR is unavailable or the capture fails, the reward is 0 and `prev_score`
is left as it was; otherwise the reward is the score delta and `prev_score`
becomes the new score. Python returns `float(current - prev_score)`; the
scores are integers, so the value is modelled exactly as `Int`. -/
def calculate_reward (ocr : Option (Frame → Int)) (rewardGrab : Option Frame)
    (prev_score : Int) : Int × Int :=
  match ocr with
  | none => (0, prev_score)
  | some extract =>
    match rewardGrab with
    | none => (0, prev_score)
    | some frame =>
      let current := extract frame
      (current - prev_score, current)

/-- `CombatMissionEnv._get_observation`: `grab_resized(160, 90)` with small
observations, full-window `grab_grayscale` otherwise. -/
def get_observation (use_small_obs cv2Available : Bool) (window : GameWindow)
    (obsGrab : Option Frame) : Except String Frame :=
  if use_small_obs then grab_resized window cv2Available obsGrab 160 90
  else grab_grayscale window cv2Available obsGrab

/-- Everything `CombatMissionEnv.step` produces: the input command it issued
(if any), the new episode state, and the returned
(observation, reward, terminated, truncated, info) tuple. -/
structure StepResult where
  command : Option Command
  state : EpisodeState
  obs : Frame
  reward : Int
  terminated : Bool
  truncated : Bool
  info_turn : Nat
  info_actions : Nat
  info_score : Int

/-- `CombatMissionEnv.step`, parameterised by `grid_size = rows*cols` and the
truncation cap `max_turns` (set to 50 in `__init__`). `obsGrab` and
`rewardGrab` are the outcomes of the two separate screen grabs performed
during `_get_observation` and `_calculate_reward`. The only exception path is
cv2 being unavailable inside `_get_observation`, modelled by `Except`. -/
def envStep (grid_size max_turns : Nat) (use_small_obs cv2Available : Bool)
    (window : GameWindow) (s : EpisodeState) (action : Nat)
    (obsGrab rewardGrab : Option Frame) (ocr : Option (Frame → Int)) :
    Except String StepResult :=
  let action_count := s.action_count + 1
  let d := dispatch grid_size action
  let turn_count := if d.2 then s.turn_count + 1 else s.turn_count
  match get_observation use_small_obs cv2Available window obsGrab with
  | Except.error e => Except.error e
  | Except.ok obs =>
    let r := calculate_reward ocr rewardGrab s.prev_score
    Except.ok
      { command := d.1
      , state := { prev_score := r.2, turn_count := turn_count, action_count := action_count }
      , obs := obs
      , reward := r.1
      , terminated := false
      , truncated := decide (max_turns ≤ turn_count)
      , info_turn := turn_count
      , info_actions := action_count
      , info_score := r.2 }

/-- `CombatMissionEnv.reset`: zeroes the episode state, issues the
camera-top-down command, and captures an initial observation (the state is
zeroed before the capture, so it is zeroed even on a capture exception). -/
def envReset (use_small_obs cv2Available : Bool) (window : GameWindow)
    (obsGrab : Option Frame) (s : EpisodeState) :
    EpisodeState × Command × Except String Frame :=
  let _ := s
  ( { prev_score := 0, turn_count := 0, action_count := 0 }
  , Command.cameraTopDown
  , get_observation use_small_obs cv2Available window obsGrab )

/-- The end-turn branch of the dispatch chain is taken exactly for action
`grid_size + 4`. -/
lemma dispatch_snd (grid_size action : Nat) :
    (dispatch grid_size action).2 = decide (action = grid_size + 4) := by
  unfold dispatch
  split_ifs <;> simp <;> omega

/-- An action outside the declared action space matches no branch of the
dispatch chain: no command is issued and the end-turn branch is not taken. -/
lemma dispatch_out_of_range (grid_size action : Nat) (h : grid_size + 5 ≤ action) :
    dispatch grid_size action = (none, false) := by
  unfold dispatch
  split_ifs <;> first | rfl | omega

/-- With cv2 available, `_get_observation` always succeeds. -/
lemma get_observation_ok (use_small_obs : Bool) (window : GameWindow)
    (obsGrab : Option Frame) :
    ∃ obs, get_observation use_small_obs true window obsGrab = Except.ok obs := by
  cases use_small_obs <;> cases obsGrab <;> exact ⟨_, rfl⟩

/-- Explicit form of a successful `envStep`. -/
lemma envStep_eq (grid_size max_turns : Nat) (use_small_obs : Bool)
    (window : GameWindow) (s : EpisodeState) (action : Nat)
    (obsGrab rewardGrab : Option Frame) (ocr : Option (Frame → Int)) (obs : Frame)
    (hobs : get_observation use_small_obs true window obsGrab = Except.ok obs) :
    envStep grid_size max_turns use_small_obs true window s action obsGrab rewardGrab ocr
      = Except.ok
        { command := (dispatch grid_size action).1
        , state :=
          { prev_score := (calculate_reward ocr rewardGrab s.prev_score).2
          , turn_count :=
              if (dispatch grid_size action).2 then s.turn_count + 1 else s.turn_count
          , action_count := s.action_count + 1 }
        , obs := obs
        , reward := (calculate_reward ocr rewardGrab s.prev_score).1
        , terminated := false
        , truncated := decide (max_turns ≤
            if (dispatch grid_size action).2 then s.turn_count + 1 else s.turn_count)
        , info_turn :=
            if (dispatch grid_size action).2 then s.turn_count + 1 else s.turn_count
        , info_actions := s.action_count + 1
        , info_score := (calculate_reward ocr rewardGrab s.prev_score).2 } := by
  unfold envStep
  rw [hobs]

/-- Claim C1: for every action in the declared action space
[0, grid_size + 5), `step` changes `turn_count` only for the end-turn action
`grid_size + 4`, which increments it by exactly 1; every other valid action
leaves it unchanged. -/
theorem step_turn_count (grid_size max_turns : Nat) (use_small_obs : Bool)
    (window : GameWindow) (s : EpisodeState) (action : Nat)
    (obsGrab rewardGrab : Option Frame) (ocr : Option (Frame → Int))
    (h : action < grid_size + 5) :
    ∃ r, envStep grid_size max_turns use_small_obs true window s action
        obsGrab rewardGrab ocr = Except.ok r ∧
      r.state.turn_count =
        (if action = grid_size + 4 then s.turn_count + 1 else s.turn_count) := by
  obtain ⟨obs, hobs⟩ := get_observation_ok use_small_obs window obsGrab
  refine ⟨_, envStep_eq grid_size max_turns use_small_obs window s action
    obsGrab rewardGrab ocr obs hobs, ?_⟩
  simp only [dispatch_snd]
  by_cases hA : action = grid_size + 4 <;> simp [hA]

/-- Witness for C1: default-sized grid (grid_size 100), end-turn action 104
increments `turn_count` from 2 to 3. -/
theorem step_turn_count_witness :
    ∃ r, envStep 100 50 true true defaultWindow
        { prev_score := 5, turn_count := 2, action_count := 7 } 104
        none none none = Except.ok r ∧
      r.state.turn_count = (if 104 = 100 + 4 then 2 + 1 else 2) :=
  step_turn_count 100 50 true defaultWindow
    { prev_score := 5, turn_count := 2, action_count := 7 } 104 none none none
    (by omega)

/-- Claim C5: on every `step`, the reward is the OCR score delta
`current_score - prev_score` and `prev_score` updates to the new score; when
OCR is unavailable or the capture fails, the reward is exactly 0 and
`prev_score` is untouched; the step still returns normally (no error
propagated). -/
theorem step_reward (grid_size max_turns : Nat) (use_small_obs : Bool)
    (window : GameWindow) (s : EpisodeState) (action : Nat)
    (obsGrab rewardGrab : Option Frame) (ocr : Option (Frame → Int)) :
    ∃ r, envStep grid_size max_turns use_small_obs true window s action
        obsGrab rewardGrab ocr = Except.ok r ∧
      r.reward = (match ocr, rewardGrab with
        | some extract, some frame => extract frame - s.prev_score
        | _, _ => 0) ∧
      r.state.prev_score = (match ocr, rewardGrab with
        | some extract, some frame => extract frame
        | _, _ => s.prev_score) := by
  obtain ⟨obs, hobs⟩ := get_observation_ok use_small_obs window obsGrab
  refine ⟨_, envStep_eq grid_size max_turns use_small_obs window s action
    obsGrab rewardGrab ocr obs hobs, ?_, ?_⟩ <;>
    cases ocr <;> cases rewardGrab <;> rfl

/-- Claim C6: `reset` always sets `turn_count`, `action_count` and
`prev_score` to zero, regardless of the episode state before the call. -/
theorem reset_zeroes (use_small_obs cv2Available : Bool) (window : GameWindow)
    (obsGrab : Option Frame) (s : EpisodeState) :
    (envReset use_small_obs cv2Available window obsGrab s).1.turn_count = 0 ∧
    (envReset use_small_obs cv2Available window obsGrab s).1.action_count = 0 ∧
    (envReset use_small_obs cv2Available window obsGrab s).1.prev_score = 0 :=
  ⟨rfl, rfl, rfl⟩

/-- Claim C7: `truncated` is true exactly when the (possibly incremented)
`turn_count` has reached the cap; `turn_count` never decreases across a step
and grows by at most 1, so `truncated` first becomes true when `turn_count`
first reaches the cap and stays true on every later step; only `reset`
brings `turn_count` back to 0. -/
theorem step_truncated (grid_size max_turns : Nat) (use_small_obs : Bool)
    (window : GameWindow) (s : EpisodeState) (action : Nat)
    (obsGrab rewardGrab : Option Frame) (ocr : Option (Frame → Int)) :
    ∃ r, envStep grid_size max_turns use_small_obs true window s action
        obsGrab rewardGrab ocr = Except.ok r ∧
      (r.truncated = true ↔ max_turns ≤ r.state.turn_count) ∧
      s.turn_count ≤ r.state.turn_count ∧
      r.state.turn_count ≤ s.turn_count + 1 ∧
      (envReset use_small_obs true window obsGrab s).1.turn_count = 0 := by
  obtain ⟨obs, hobs⟩ := get_observation_ok use_small_obs window obsGrab
  refine ⟨_, envStep_eq grid_size max_turns use_small_obs window s action
    obsGrab rewardGrab ocr obs hobs, ?_, ?_, ?_, rfl⟩ <;>
    by_cases hE : (dispatch grid_size action).2 <;> simp [hE]

/-- Claim C9: for any action at or beyond `grid_size + 5` (outside the
declared action space), `step` issues no input command and leaves
`turn_count` unchanged, yet still increments `action_count`, captures an
observation, computes the reward, and returns a normal result tuple with
`terminated` false, without raising. -/
theorem step_out_of_range (grid_size max_turns : Nat) (use_small_obs : Bool)
    (window : GameWindow) (s : EpisodeState) (action : Nat)
    (obsGrab rewardGrab : Option Frame) (ocr : Option (Frame → Int))
    (h : grid_size + 5 ≤ action) :
    ∃ r, envStep grid_size max_turns use_small_obs true window s action
        obsGrab rewardGrab ocr = Except.ok r ∧
      r.command = none ∧
      r.state.turn_count = s.turn_count ∧
      r.state.action_count = s.action_count + 1 ∧
      get_observation use_small_obs true window obsGrab = Except.ok r.obs ∧
      r.reward = (calculate_reward ocr rewardGrab s.prev_score).1 ∧
      r.terminated = false := by
  obtain ⟨obs, hobs⟩ := get_observation_ok use_small_obs window obsGrab
  refine ⟨_, envStep_eq grid_size max_turns use_small_obs window s action
    obsGrab rewardGrab ocr obs hobs, ?_, ?_, rfl, hobs, rfl, rfl⟩ <;>
    simp [dispatch_out_of_range grid_size action h]

/-- Witness for C9: action 2000 on the default-sized grid. -/
theorem step_out_of_range_witness :
    ∃ r, envStep 100 50 true true defaultWindow
        { prev_score := 5, turn_count := 2, action_count := 7 } 2000
        none none none = Except.ok r ∧
      r.command = none ∧
      r.state.turn_count = 2 ∧
      r.state.action_count = 7 + 1 ∧
      get_observation true true defaultWindow none = Except.ok r.obs ∧
      r.reward = (calculate_reward none none 5).1 ∧
      r.terminated = false :=
  step_out_of_range 100 50 true defaultWindow
    { prev_score := 5, turn_count := 2, action_count := 7 } 2000 none none none
    (by omega)

/-! ## Gameplay recorder (training/recorder.py) -/

/-- A click `ActionRecord` as appended by `GameplayRecorder._on_click`
(the dict written to `actions.json`). `frame_num` is `frame_count - 1` on a
Python `int`, so it is modelled as `Int` (it is -1 when no frame was ever
saved). -/
structure ActionRecord where
  frame : String
  frame_num : Int
  action_type : String
  x : Int
  y : Int
  grid_cell : Int
  grid_row : Int
  grid_col : Int
  button : String
  shift : Bool
  ctrl : Bool
  alt : Bool

/-- The recorder state touched by the click handler. -/
structure RecorderState where
  records : List ActionRecord
  frame_count : Nat
  running : Bool
  shift_held : Bool
  ctrl_held : Bool
  alt_held : Bool

/-- The outcome of the external effects inside one `_capture_frame` call:
what `self.screen.grab()` returns and whether `np.save` succeeds. -/
structure CaptureIO where
  grabResult : Option Frame
  saveOk : Bool

/-- Zero-padded frame file name `f"frame_{n:05d}.npy"`. -/
def frameFilename (n : Nat) : String :=
  let s := toString n
  let padded := if s.length < 5 then String.mk (List.replicate (5 - s.length) '0') ++ s else s
  "frame_" ++ padded ++ ".npy"

/-- `GameplayRecorder._capture_frame`: returns (filename, new frame_count).
When `grab` returns None, or saving raises, it returns the empty string and
leaves `frame_count` unchanged (the exception from `np.save` is caught before
`frame_count` is incremented); on success it saves
`frame_{frame_count:05d}.npy` and increments `frame_count`. -/
def capture_frame (io : CaptureIO) (frame_count : Nat) : String × Nat :=
  match io.grabResult with
  | none => ("", frame_count)
  | some _ =>
    if io.saveOk then (frameFilename frame_count, frame_count + 1)
    else ("", frame_count)

/-- `GameplayRecorder._is_in_game_window`: whether a coordinate lies inside
the configured window region. -/
def is_in_game_window (w : GameWindow) (x y : Int) : Bool :=
  decide (w.left ≤ x ∧ x < w.left + w.width ∧ w.top ≤ y ∧ y < w.top + w.height)

/-- `GameplayRecorder._on_click`: ignores releases and events while not
running; discards presses outside the window region (no record, no capture);
otherwise captures a frame and appends exactly one click ActionRecord whose
cell is the clamped `to_cell` mapping of the press coordinate (the
computation inlined in the handler is exactly `to_cell`) and whose
`frame_num` is the post-capture `frame_count - 1`. -/
def on_click (w : GameWindow) (g : GridConfig) (io : CaptureIO)
    (s : RecorderState) (x y : Int) (button : String) (pressed : Bool) :
    RecorderState :=
  if ¬pressed ∨ ¬s.running then s
  else if ¬is_in_game_window w x y then s
  else
    let captured := capture_frame io s.frame_count
    let cell := to_cell w g x y
    { s with
      frame_count := captured.2
    , records := s.records ++
        [ { frame := captured.1
          , frame_num := (captured.2 : Int) - 1
          , action_type := "click"
          , x := x
          , y := y
          , grid_cell := cell.1 * g.cols + cell.2
          , grid_row := cell.1
          , grid_col := cell.2
          , button := button
          , shift := s.shift_held
          , ctrl := s.ctrl_held
          , alt := s.alt_held } ] }

/-- Claim C8: while the recorder runs, a press outside the WindowRegion
appends zero ActionRecords and triggers no frame capture (the state is
returned unchanged, independent of the capture oracle); a press inside
appends exactly one ActionRecord whose cell fields equal the clamped
`to_cell` mapping of the press coordinate. -/
theorem on_click_records (w : GameWindow) (g : GridConfig) (io : CaptureIO)
    (s : RecorderState) (x y : Int) (button : String)
    (hrun : s.running = true) :
    (is_in_game_window w x y = false →
      on_click w g io s x y button true = s ∧
      ∀ io2 : CaptureIO, on_click w g io2 s x y button true = s) ∧
    (is_in_game_window w x y = true →
      ∃ rec, (on_click w g io s x y button true).records = s.records ++ [rec] ∧
        rec.grid_row = (to_cell w g x y).1 ∧
        rec.grid_col = (to_cell w g x y).2 ∧
        rec.grid_cell = (to_cell w g x y).1 * g.cols + (to_cell w g x y).2 ∧
        rec.x = x ∧ rec.y = y ∧ rec.action_type = "click") := by
  constructor
  · intro hout
    constructor
    · simp [on_click, hrun, hout]
    · intro io2
      simp [on_click, hrun, hout]
  · intro hin
    refine ⟨{ frame := (capture_frame io s.frame_count).1
            , frame_num := ((capture_frame io s.frame_count).2 : Int) - 1
            , action_type := "click", x := x, y := y
            , grid_cell := (to_cell w g x y).1 * g.cols + (to_cell w g x y).2
            , grid_row := (to_cell w g x y).1
            , grid_col := (to_cell w g x y).2
            , button := button, shift := s.shift_held, ctrl := s.ctrl_held
            , alt := s.alt_held }, ?_, rfl, rfl, rfl, rfl, rfl, rfl⟩
    simp [on_click, hrun, hin]

/-- Witness for C8 at the default configuration: a press at (500, 400), which
is inside the default window, appends exactly one record mapped by
`to_cell`. -/
theorem on_click_records_witness :
    ∃ rec, (on_click defaultWindow defaultGrid
        { grabResult := none, saveOk := true }
        { records := [], frame_count := 0, running := true
        , shift_held := false, ctrl_held := false, alt_held := false }
        500 400 "Button.left" true).records = [] ++ [rec] ∧
      rec.grid_row = (to_cell defaultWindow defaultGrid 500 400).1 ∧
      rec.grid_col = (to_cell defaultWindow defaultGrid 500 400).2 ∧
      rec.grid_cell = (to_cell defaultWindow defaultGrid 500 400).1 * defaultGrid.cols
        + (to_cell defaultWindow defaultGrid 500 400).2 ∧
      rec.x = 500 ∧ rec.y = 400 ∧ rec.action_type = "click" :=
  (on_click_records defaultWindow defaultGrid
    { grabResult := none, saveOk := true }
    { records := [], frame_count := 0, running := true
    , shift_held := false, ctrl_held := false, alt_held := false }
    500 400 "Button.left" rfl).2 (by decide)

/-- Claim C10: when the frame capture fails (the grab returns None or the
save raises), `_capture_frame` returns the empty string and leaves
`frame_count` unchanged; the single ActionRecord appended for an in-window
press then has `frame` equal to the empty string and `frame_num` equal to
`frame_count - 1`: -1 when no frame was ever saved in the session, and the
index of an earlier, unrelated frame otherwise. -/
theorem capture_failure_record (w : GameWindow) (g : GridConfig)
    (io : CaptureIO) (s : RecorderState) (x y : Int) (button : String)
    (hrun : s.running = true) (hin : is_in_game_window w x y = true)
    (hfail : io.grabResult = none ∨ io.saveOk = false) :
    capture_frame io s.frame_count = ("", s.frame_count) ∧
    (on_click w g io s x y button true).frame_count = s.frame_count ∧
    ∃ rec, (on_click w g io s x y button true).records = s.records ++ [rec] ∧
      rec.frame = "" ∧
      rec.frame_num = (s.frame_count : Int) - 1 ∧
      (s.frame_count = 0 → rec.frame_num = -1) := by
  have hcap : capture_frame io s.frame_count = ("", s.frame_count) := by
    rcases hfail with h | h
    · simp [capture_frame, h]
    · unfold capture_frame
      cases io.grabResult <;> simp [h]
  have hc1 : (capture_frame io s.frame_count).1 = "" := by rw [hcap]
  have hc2 : (capture_frame io s.frame_count).2 = s.frame_count := by rw [hcap]
  refine ⟨hcap, ?_, ?_⟩
  · simp [on_click, hrun, hin, hc2]
  · refine ⟨{ frame := (capture_frame io s.frame_count).1
            , frame_num := ((capture_frame io s.frame_count).2 : Int) - 1
            , action_type := "click", x := x, y := y
            , grid_cell := (to_cell w g x y).1 * g.cols + (to_cell w g x y).2
            , grid_row := (to_cell w g x y).1
            , grid_col := (to_cell w g x y).2
            , button := button, shift := s.shift_held, ctrl := s.ctrl_held
            , alt := s.alt_held }, ?_, hc1, ?_, ?_⟩
    · simp [on_click, hrun, hin]
    · rw [hc2]
    · intro h0
      rw [hc2, h0]
      simp

/-- Witness for C10: first click of a session (frame_count 0) with a failing
grab records `frame_num = -1` and an empty frame reference. -/
theorem capture_failure_record_witness :
    capture_frame { grabResult := none, saveOk := true } 0 = ("", 0) ∧
    (on_click defaultWindow defaultGrid { grabResult := none, saveOk := true }
      { records := [], frame_count := 0, running := true
      , shift_held := false, ctrl_held := false, alt_held := false }
      500 400 "Button.left" true).frame_count = 0 ∧
    ∃ rec, (on_click defaultWindow defaultGrid { grabResult := none, saveOk := true }
        { records := [], frame_count := 0, running := true
        , shift_held := false, ctrl_held := false, alt_held := false }
        500 400 "Button.left" true).records = [] ++ [rec] ∧
      rec.frame = "" ∧
      rec.frame_num = ((0 : Nat) : Int) - 1 ∧
      ((0 : Nat) = 0 → rec.frame_num = -1) :=
  capture_failure_record defaultWindow defaultGrid
    { grabResult := none, saveOk := true }
    { records := [], frame_count := 0, running := true
    , shift_held := false, ctrl_held := false, alt_held := false }
    500 400 "Button.left" rfl (by decide) (Or.inl rfl)
